/-
Verification of the context-composition and team-orchestration core of the
silentpartner-ai backend, as a shallow embedding in Lean 4.

Python strings are modelled as `List Char` (`Str`).  Python truthiness of an
optional string column (`None` and `""` are falsy) is `truthyStr`.  The
external completion providers (OpenAI / Anthropic clients) are modelled as an
opaque function argument returning `Except` (an exception or a response text);
Fernet decryption of a stored API key is an external bijection whose output is
only ever passed through to a provider, so it is modelled as the identity.
-/
import Mathlib

namespace QuietDesk

/-- Python `str`, as its list of characters. -/
abbrev Str := List Char

/-- Python truthiness of an optional string (None and the empty string are falsy). -/
def truthyStr : Option Str → Bool
  | none => false
  | some s => !s.isEmpty

/-- Python membership of one string in another: `a` occurs contiguously inside `s`. -/
def OccursIn (a s : Str) : Prop := ∃ p q, s = p ++ a ++ q

/-- Python `"\n".join(parts)`-style join of a list of strings with a separator. -/
def joinSep (sep : Str) : List Str → Str
  | [] => []
  | [x] => x
  | x :: y :: t => x ++ sep ++ joinSep sep (y :: t)

/-- The characters Python treats as whitespace: `Py_UNICODE_ISSPACE`, the
predicate behind both `str.isspace()` / `str.strip()` and the regex `\s`
class for str patterns — ASCII whitespace (including the file/group/record/
unit separators 1C–1F) plus the Unicode space characters U+0085, U+00A0,
U+1680, U+2000–U+200A, U+2028, U+2029, U+202F, U+205F and U+3000. -/
def isPySpace (c : Char) : Bool :=
  c = ' ' || c = '\t' || c = '\n' || c = '\r' || c = '\x0b' || c = '\x0c'
    || ('\x1c' ≤ c && c ≤ '\x1f') || c = '\x85' || c = '\xa0'
    || c = '\u1680' || ('\u2000' ≤ c && c ≤ '\u200a')
    || c = '\u2028' || c = '\u2029' || c = '\u202f' || c = '\u205f' || c = '\u3000'

/-- Python `str.strip()`: drop leading and trailing whitespace. -/
def pyStrip (s : Str) : Str :=
  ((s.dropWhile isPySpace).reverse.dropWhile isPySpace).reverse

/-- Fuel-indexed helper for `pyDedup`; fuel bounds the recursion depth
(each step consumes the head, and filtering never grows the tail). -/
def pyDedupAux : Nat → List Str → List Str
  | 0, _ => []
  | _, [] => []
  | fuel + 1, x :: xs => x :: pyDedupAux fuel (xs.filter (fun y => y != x))

/-- Python `list(dict.fromkeys(xs))`: deduplicate keeping the first
occurrence of each element, preserving order. -/
def pyDedup (l : List Str) : List Str := pyDedupAux l.length l

/- ========================================================================
   routes_chat.py — token estimation, context limits, conversation compaction
   ======================================================================== -/

/-- Source `estimate_tokens` (routes_chat.py): rough token estimate,
4 chars per token; the empty string estimates to 0 (`len(text) // 4`). -/
def estimate_tokens (text : Str) : Nat := text.length / 4

/-- Source `get_model_context_limit` (routes_chat.py): table of known model
context limits, defaulting to 8192 for unknown models. -/
def get_model_context_limit (model : Str) : Nat :=
  if model = "gpt-4".data then 8192
  else if model = "gpt-4-turbo".data then 128000
  else if model = "gpt-4o".data then 128000
  else if model = "gpt-4o-mini".data then 128000
  else if model = "gpt-3.5-turbo".data then 16385
  else if model = "claude-3-5-sonnet-latest".data then 200000
  else if model = "claude-3-5-haiku-latest".data then 200000
  else if model = "claude-3-opus-latest".data then 200000
  else 8192

/-- The numerator of the IEEE-754 double closest to 0.7: the Python literal
`0.7` denotes exactly 3152519739159347 / 2^52. -/
def float07num : Nat := 3152519739159347

/-- Bit length of a natural number (`log2 p + 1` for positive `p`), written
with fuel so that kernel reduction can evaluate it; 128 bits of fuel make it
exact for every `p < 2^128`, far beyond any product the context-limit table
produces. -/
def bitLenAux : Nat → Nat → Nat
  | 0, _ => 0
  | _, 0 => 0
  | fuel + 1, p => bitLenAux fuel (p / 2) + 1

/-- Bit length of a natural number. -/
def bitLen (p : Nat) : Nat := bitLenAux 128 p

/-- Python `int(n * 0.7)` computed exactly.  The factors are exact (a small
integer and the double `0.7`), so the exact product is the integer
`p = n * 3152519739159347` scaled by `2^-52`; IEEE-754 double multiplication
rounds `p` to 53 significant bits, nearest, ties to even, and `int(...)`
then truncates the resulting double toward zero.  The rounding step matters:
`int(128000 * 0.7) = 89600` and `int(200000 * 0.7) = 140000` (the double
products round up to exactly 89600.0 and 140000.0), while
`int(8192 * 0.7) = 5734` and `int(16385 * 0.7) = 11469`. -/
def int_mul_0_7 (n : Nat) : Nat :=
  let p := n * float07num
  let bits := bitLen p
  if bits ≤ 53 then p / 2 ^ 52
  else
    let sh := bits - 53
    let q := p / 2 ^ sh
    let r := p % 2 ^ sh
    let half := 2 ^ (sh - 1)
    let rounded :=
      if half < r then q + 1
      else if r < half then q
      else if q % 2 = 0 then q else q + 1
    rounded * 2 ^ sh / 2 ^ 52

/-- The token budget `summarize_messages_for_context` actually compares
against: `int(get_model_context_limit(model) * 0.7)` when a (truthy) model
string is supplied, else the `max_tokens` argument (default 8000). -/
def effective_max_tokens (max_tokens : Nat) (model : Option Str) : Nat :=
  if truthyStr model then int_mul_0_7 (get_model_context_limit (model.getD []))
  else max_tokens

/-- One chat message dict with its `"role"` and `"content"` entries. -/
structure Msg where
  role : Str
  content : Str
deriving DecidableEq, Repr

/-- Total estimated tokens over all messages' content
(`sum(estimate_tokens(m.get("content", "")) for m in messages)`). -/
def totalTokens (messages : List Msg) : Nat :=
  (messages.map (fun m => estimate_tokens m.content)).sum

/-- Character class `[a-zA-Z0-9_-]` of the spreadsheet-id pattern. -/
def isIdChar (c : Char) : Bool :=
  c.isAlpha || c.isDigit || c = '_' || c = '-'

/-- Literal prefix of the spreadsheet-id pattern `\(spreadsheet_id:\s*([a-zA-Z0-9_-]+)`. -/
def spreadsheetIdLit : Str := "(spreadsheet_id:".data

/-- Literal prefix of the sheet-list pattern `sheets:\s*([^)]+)\)`. -/
def sheetsLit : Str := "sheets:".data

/-- Literal prefix of the URL pattern `https://docs\.google\.com/spreadsheets/d/[^\s\)]+`. -/
def sheetUrlLit : Str := "https://docs.google.com/spreadsheets/d/".data

/-- Fuel-indexed scanner for `re.findall(r'\(spreadsheet_id:\s*([a-zA-Z0-9_-]+)', content)`:
at each position, if the literal prefix matches, skip the maximal whitespace
run, capture the maximal (nonempty) run of id characters, and resume after
the match; otherwise advance one character.  `\s*` cannot backtrack into a
successful `[a-zA-Z0-9_-]+` (whitespace is not an id char), so a failed
capture means no match at this position.  Fuel (the string length) bounds the
recursion: every step consumes at least one character. -/
def scanIdsAux : Nat → Str → List Str
  | 0, _ => []
  | _, [] => []
  | fuel + 1, c :: rest =>
    if spreadsheetIdLit.isPrefixOf (c :: rest) then
      let after := (c :: rest).drop spreadsheetIdLit.length
      let ws := after.takeWhile isPySpace
      let tl := after.drop ws.length
      let cap := tl.takeWhile isIdChar
      if cap.isEmpty then scanIdsAux fuel rest
      else cap :: scanIdsAux fuel (tl.drop cap.length)
    else scanIdsAux fuel rest

/-- Captures of the spreadsheet-id regex over a content string, in match order. -/
def scanIds (s : Str) : List Str := scanIdsAux s.length s

/-- Fuel-indexed scanner for `re.findall(r'sheets:\s*([^)]+)\)', content)`.
A match at a position needs the literal, then at least one character strictly
before the next `)`.  The returned string is the full text between the
literal and that `)`; the regex capture differs from it only by the leading
whitespace `\s*` swallows (backtracking returns whitespace to `[^)]+` only
when everything between is whitespace), and the caller strips both ends, so
the stripped artifact is identical.  Scanning resumes after the `)`. -/
def scanSheetsAux : Nat → Str → List Str
  | 0, _ => []
  | _, [] => []
  | fuel + 1, c :: rest =>
    if sheetsLit.isPrefixOf (c :: rest) then
      let after := (c :: rest).drop sheetsLit.length
      let between := after.takeWhile (fun ch => ch != ')')
      if between.isEmpty || between.length = after.length then scanSheetsAux fuel rest
      else between :: scanSheetsAux fuel (after.drop (between.length + 1))
    else scanSheetsAux fuel rest

/-- Raw between-texts of the sheet-list regex over a content string. -/
def scanSheets (s : Str) : List Str := scanSheetsAux s.length s

/-- Fuel-indexed scanner for
`re.findall(r'https://docs\.google\.com/spreadsheets/d/[^\s\)]+', content)`:
the literal prefix followed by a maximal nonempty run of characters that are
neither whitespace nor `)`; the whole match (prefix included) is returned,
and scanning resumes after it. -/
def scanUrlsAux : Nat → Str → List Str
  | 0, _ => []
  | _, [] => []
  | fuel + 1, c :: rest =>
    if sheetUrlLit.isPrefixOf (c :: rest) then
      let after := (c :: rest).drop sheetUrlLit.length
      let run := after.takeWhile (fun ch => !isPySpace ch && ch != ')')
      if run.isEmpty then scanUrlsAux fuel rest
      else (sheetUrlLit ++ run) :: scanUrlsAux fuel (after.drop run.length)
    else scanUrlsAux fuel rest

/-- Full matches of the spreadsheet-URL regex over a content string. -/
def scanUrls (s : Str) : List Str := scanUrlsAux s.length s

/-- The artifact lines one message contributes to
`extract_important_artifacts`: ids, then sheet lists (stripped), then URLs. -/
def artifactLinesOne (m : Msg) : List Str :=
  (scanIds m.content).map (fun sid => "- Google Sheet ID: ".data ++ sid)
    ++ (scanSheets m.content).map (fun sh => "- Sheet tabs: ".data ++ pyStrip sh)
    ++ (scanUrls m.content).map (fun url => "- Spreadsheet URL: ".data ++ url)

/-- The artifact lines accumulated by `extract_important_artifacts`, one
message at a time. -/
def artifactLines : List Msg → List Str
  | [] => []
  | m :: ms => artifactLinesOne m ++ artifactLines ms

/-- Source `extract_important_artifacts` (routes_chat.py): collect artifact
lines, deduplicate preserving first occurrences, join with newlines
(`"\n".join([])` is already `""`, matching the `if artifacts else ""` guard). -/
def extract_important_artifacts (messages : List Msg) : Str :=
  joinSep "\n".data (pyDedup (artifactLines messages))

/-- Truncation of one summarized line's content: `content[:150] + "..."`
when longer than 150 characters. -/
def truncate150 (content : Str) : Str :=
  if 150 < content.length then content.take 150 ++ "...".data else content

/-- Source `keep_recent = 6`: the recency floor of the compactor. -/
def keep_recent : Nat := 6

/-- The synopsis turn's content built from the older messages: a labeled
header, the `[role]: content` lines of the last 10 older messages truncated
to 150 characters (of which only the last 5 lines are kept), and — when any
artifacts were extracted — the labeled preserve-these section. -/
def synopsisContent (older : List Msg) : Str :=
  let artifacts := extract_important_artifacts older
  let summary_parts := (older.drop (older.length - 10)).map
    (fun m => "[".data ++ m.role ++ "]: ".data ++ truncate150 m.content)
  let summary_text :=
    "## Earlier Conversation Summary\n".data
      ++ "The conversation started earlier. Key points:\n".data
      ++ joinSep "\n".data (summary_parts.drop (summary_parts.length - 5))
  if artifacts.isEmpty then summary_text
  else summary_text ++ "\n\n## Important Context (preserve these):\n".data ++ artifacts

/-- Source `summarize_messages_for_context` (routes_chat.py): identity when
empty, within budget, or at most `keep_recent` messages; otherwise replaces
everything but the last `keep_recent` messages with one synthetic synopsis
turn (role `"user"`), preserving extracted artifacts. -/
def summarize_messages_for_context (messages : List Msg) (max_tokens : Nat := 8000)
    (model : Option Str := none) : List Msg :=
  if messages = [] then messages
  else
    let max_tokens := effective_max_tokens max_tokens model
    let total_tokens := totalTokens messages
    if total_tokens ≤ max_tokens then messages
    else if messages.length ≤ keep_recent then messages
    else
      { role := "user".data,
        content := synopsisContent (messages.take (messages.length - keep_recent)) }
        :: messages.drop (messages.length - keep_recent)

/- ========================================================================
   routes_chat.py — instruction composition and provider routing
   ======================================================================== -/

/-- The Employee columns that `compose_instructions` reads (models.py:
`instructions` and `user_instructions` are nullable Text columns). -/
structure Employee where
  instructions : Option Str
  user_instructions : Option Str
deriving DecidableEq, Repr

/-- The RoleTemplate column that `compose_instructions` reads. -/
structure RoleTemplate where
  instructions : Option Str
deriving DecidableEq, Repr

/-- The labeled user-layer section prefix appended by `compose_instructions`. -/
def userSection : Str := "\n\n## Additional Instructions from User:\n".data

/-- Source `compose_instructions` (routes_chat.py): base layer is the
employee's own instructions if truthy, else the linked template's truthy
instructions, else nothing; the user layer is appended as a labeled part;
parts are joined with `"\n"` (the join of no parts is already `""`). -/
def compose_instructions (employee : Employee) (role_template : Option RoleTemplate) : Str :=
  let baseParts : List Str :=
    if truthyStr employee.instructions then [employee.instructions.getD []]
    else
      match role_template with
      | some rt => if truthyStr rt.instructions then [rt.instructions.getD []] else []
      | none => []
  let userParts : List Str :=
    if truthyStr employee.user_instructions then
      [userSection ++ employee.user_instructions.getD []]
    else []
  joinSep "\n".data (baseParts ++ userParts)

/-- Source `get_provider_for_model` (routes_chat.py): model identifiers
beginning with `"claude"` route to Anthropic, everything else to OpenAI. -/
def get_provider_for_model (model : Str) : Str :=
  if "claude".data.isPrefixOf model then "anthropic".data else "openai".data

/-- Provider dispatch of `call_ai` (routes_processing.py): the same prefix
test selects `call_anthropic` versus `call_openai`. -/
def call_ai_provider (model : Str) : Str :=
  if "claude".data.isPrefixOf model then "anthropic".data else "openai".data

/- ========================================================================
   routes_memory.py — memory visibility queries
   ======================================================================== -/

/-- The Memory columns read by `get_memories_for_employee` (models.py):
`employee_id` and `project_id` are nullable foreign keys, NULL meaning
shared / not project-scoped.  A list of memories models the rows in
`created_at` order, so the source's `order_by(Memory.created_at)` is the
identity on each filtered segment. -/
structure Memory where
  owner_id : Str
  employee_id : Option Str
  project_id : Option Str
  content : Str
deriving DecidableEq, Repr

/-- Source `get_memories_for_employee` (routes_memory.py): three independent
queries — shared (no employee, no project), employee-scoped, and (when a
project id is given) project-scoped — concatenated in that order. -/
def get_memories_for_employee (mems : List Memory) (user_id employee_id : Str)
    (project_id : Option Str) : List Str :=
  let shared := (mems.filter (fun m =>
    m.owner_id == user_id && m.employee_id == none && m.project_id == none)).map
    (fun m => m.content)
  let role := (mems.filter (fun m =>
    m.owner_id == user_id && m.employee_id == some employee_id)).map
    (fun m => m.content)
  let project :=
    match project_id with
    | some pid => (mems.filter (fun m =>
        m.owner_id == user_id && m.project_id == some pid)).map (fun m => m.content)
    | none => []
  shared ++ role ++ project

/- ========================================================================
   routes_processing.py — team orchestration
   ======================================================================== -/

/-- The User credential columns read by the orchestrator (models.py:
nullable encrypted BYO keys). -/
structure User where
  openai_api_key : Option Str
  anthropic_api_key : Option Str
deriving DecidableEq, Repr

/-- Modelled from the spec: the `TeamMember` ORM class is imported by
routes_processing.py from models.py but its declaration is not under src/;
its fields are those read by the orchestrator (spec §3 "Persona
(source: ... TeamMember)") — role, name, display title, model identifier,
optional instructions. -/
structure TeamMember where
  role : Str
  name : Str
  title : Str
  model : Str
  instructions : Option Str
deriving DecidableEq, Repr

/-- Modelled from the spec: the `Request` ORM class is not under src/; its
fields are those read and written by routes_processing.py (spec §3
"Request": title, description, request_type, optional reference URL,
status machine fields, `team_involved`, timestamps).  Timestamps are
abstract instants (Nat). -/
structure Request where
  id : Str
  owner_id : Str
  title : Str
  description : Str
  request_type : Str
  product_url : Option Str
  status : Str
  team_involved : Option Str
  started_at : Option Nat
  completed_at : Option Nat
deriving DecidableEq, Repr

/-- Modelled from the spec: the `Deliverable` ORM class is not under src/;
fields as constructed in `process_request_async` (spec §3 "Deliverable"). -/
structure Deliverable where
  request_id : Str
  owner_id : Str
  title : Str
  content : Str
  deliverable_type : Str
  version : Nat
  is_draft : Bool
deriving DecidableEq, Repr

/-- Modelled from the spec: the `RequestMessage` ORM class is not under
src/; fields as constructed in routes_processing.py. -/
structure RequestMessage where
  request_id : Str
  owner_id : Str
  role : Str
  sender_name : Str
  content : Str
  is_internal : Bool
  team_member_role : Option Str
deriving DecidableEq, Repr

/-- One specialist's consultation result dict
(`{"role": ..., "name": ..., "input": ..., "error": ...}`). -/
structure TeamInput where
  role : Str
  name : Str
  input : Str
  error : Bool
deriving DecidableEq, Repr

/-- The external completion providers behind `call_ai`: given api key, model,
system prompt and user message, either a response text or a raised
exception's text. -/
abbrev AIFun := Str → Str → Str → Str → Except Str Str

/-- Fernet decryption of a stored credential (crypto.py) — an external
bijection whose result is only handed to the provider, modelled as identity. -/
def decrypt_api_key (k : Str) : Str := k

/-- Source `get_api_key_for_model` (routes_processing.py): claude-prefixed
models use the Anthropic key, everything else the OpenAI key; a missing
(falsy) credential yields None. -/
def get_api_key_for_model (user : User) (model : Str) : Option Str :=
  if "claude".data.isPrefixOf model then
    if truthyStr user.anthropic_api_key then
      some (decrypt_api_key (user.anthropic_api_key.getD []))
    else none
  else
    if truthyStr user.openai_api_key then
      some (decrypt_api_key (user.openai_api_key.getD []))
    else none

/-- Source `REQUEST_TYPE_TEAM` (routes_processing.py), as the dict's
`.get(request_type, [])`: the static roster table, with `[]` both for the
`"custom"` entry and for unknown request types. -/
def REQUEST_TYPE_TEAM (request_type : Str) : List Str :=
  if request_type = "roadmap".data then ["product_manager".data, "technical_advisor".data]
  else if request_type = "analysis".data then ["research_analyst".data, "product_manager".data]
  else if request_type = "audit".data then
    ["qa_engineer".data, "ux_expert".data, "technical_advisor".data]
  else if request_type = "review".data then ["product_manager".data, "ux_expert".data]
  else if request_type = "research".data then ["research_analyst".data]
  else if request_type = "custom".data then []
  else []

/-- The lead/synthesizer role string. -/
def pmRole : Str := "project_manager".data

/-- Roster resolution in `process_request_async`: the static table entry,
falling back to the default pair when it is empty. -/
def rolesToConsult (request_type : Str) : List Str :=
  let roles := REQUEST_TYPE_TEAM request_type
  if roles.isEmpty then ["product_manager".data, "research_analyst".data] else roles

/-- Lookup in the `{tm.role: tm for tm in team_members}` dict: the last row
with a given role wins (later dict insertions overwrite earlier ones). -/
def lookupRole : List TeamMember → Str → Option TeamMember
  | [], _ => none
  | tm :: tms, r =>
    match lookupRole tms r with
    | some t => some t
    | none => if tm.role = r then some tm else none

/-- The placeholder opinion text for a specialist with no configured key. -/
def noKeyPlaceholder (name : Str) : Str :=
  "[".data ++ name ++ " was unable to contribute - no API key configured]".data

/-- The placeholder opinion text when a specialist's provider call raises. -/
def errorPlaceholder (name e : Str) : Str :=
  "[".data ++ name ++ " encountered an error: ".data ++ e ++ "]".data

/-- The consultation prompt f-string of `consult_team_member`. -/
def consultation_prompt (req : Request) (context : Str) : Str :=
  "You are being consulted on a client request. Provide your expert input based on your role.\n\nRequest Title: ".data
    ++ req.title ++ "\nRequest Type: ".data ++ req.request_type
    ++ "\nRequest Description:\n".data ++ req.description ++ "\n\n".data
    ++ (if truthyStr (some context) then "Additional Context: ".data ++ context else [])
    ++ "\n\n".data
    ++ (match req.product_url with
        | some url => if truthyStr (some url) then "Product URL for reference: ".data ++ url else []
        | none => [])
    ++ "\n\nProvide your expert analysis and recommendations. Be specific, actionable, and thorough.\nFocus on your area of expertise and what value you can add to this deliverable.".data

/-- The specialist's system prompt: its own instructions, else the default. -/
def consultSystemPrompt (tm : TeamMember) : Str :=
  if truthyStr tm.instructions then tm.instructions.getD []
  else "You are ".data ++ tm.name ++ ", ".data ++ tm.title ++ " at QuietDesk consulting.".data

/-- Source `consult_team_member` (routes_processing.py): no key gives a
placeholder opinion marked failed; otherwise the provider is called, a
success also records an internal RequestMessage, and a raised exception is
caught and converted to a failed placeholder opinion. -/
def consult_team_member (ai : AIFun) (user : User) (tm : TeamMember) (req : Request)
    (context : Str := []) : TeamInput × Option RequestMessage :=
  match get_api_key_for_model user tm.model with
  | none =>
    ({ role := tm.role, name := tm.name, input := noKeyPlaceholder tm.name, error := true },
      none)
  | some api_key =>
    match ai api_key tm.model (consultSystemPrompt tm) (consultation_prompt req context) with
    | Except.ok response =>
      ({ role := tm.role, name := tm.name, input := response, error := false },
        some { request_id := req.id, owner_id := req.owner_id, role := "assistant".data,
               sender_name := tm.name, content := response, is_internal := true,
               team_member_role := some tm.role })
    | Except.error e =>
      ({ role := tm.role, name := tm.name, input := errorPlaceholder tm.name e, error := true },
        none)

/-- Python `s.replace("_", " ")`. -/
def pyReplaceUnderscore (s : Str) : Str :=
  s.map (fun c => if c = '_' then ' ' else c)

/-- Fold of Python `str.title()` over cased (letter) characters: a letter
following a non-letter is uppercased, a letter following a letter is
lowercased (the role strings involved are ASCII). -/
def pyTitleAux : Bool → Str → Str
  | _, [] => []
  | prevAlpha, c :: cs =>
    (if c.isAlpha then (if prevAlpha then c.toLower else c.toUpper) else c)
      :: pyTitleAux c.isAlpha cs

/-- Python `str.title()`. -/
def pyTitle (s : Str) : Str := pyTitleAux false s

/-- One succeeded opinion's block in the synthesis prompt:
`f"\n\n### {inp['name']} ({inp['role'].replace('_', ' ').title()}):\n{inp['input']}"`. -/
def contributionEntry (i : TeamInput) : Str :=
  "\n\n### ".data ++ i.name ++ " (".data ++ pyTitle (pyReplaceUnderscore i.role)
    ++ "):\n".data ++ i.input

/-- The `team_contributions` accumulation in `quincy_synthesize`: failed
opinions contribute nothing. -/
def team_contributions : List TeamInput → Str
  | [] => []
  | i :: is => (if i.error then [] else contributionEntry i) ++ team_contributions is

/-- The synthesis prompt f-string of `quincy_synthesize` (the
`DELIVERABLE_TEMPLATES` lookup in the source is assigned to a local that is
never used afterwards, so it is omitted). -/
def synthesis_prompt (req : Request) (team_inputs : List TeamInput) : Str :=
  "You are synthesizing your team\x27s input into a polished deliverable for the client.\n\n## Original Request\nTitle: ".data
    ++ req.title ++ "\nType: ".data ++ req.request_type ++ "\nDescription:\n".data
    ++ req.description ++ "\n\n".data
    ++ (match req.product_url with
        | some url => if truthyStr (some url) then "Product URL: ".data ++ url else []
        | none => [])
    ++ "\n\n## Team Contributions\n".data ++ team_contributions team_inputs
    ++ "\n\n## Your Task\nCreate a comprehensive, well-structured deliverable that:\n1. Synthesizes all team input into a cohesive document\n2. Presents findings in a clear, professional format\n3. Provides actionable recommendations\n4. Uses markdown formatting with proper headers and sections\n\nThe deliverable should be ready to present to the client as a polished consulting output.\nStructure it logically with an executive summary, main content, and clear recommendations.\n\nWrite the complete deliverable in markdown format:".data

/-- The synthesizer's system prompt: its own instructions, else the default. -/
def quincySystemPrompt (quincy : TeamMember) : Str :=
  if truthyStr quincy.instructions then quincy.instructions.getD []
  else "You are Quincy, the lead Project Manager at QuietDesk. You synthesize team input into polished client deliverables.".data

/-- Source `quincy_synthesize` (routes_processing.py): a missing synthesizer
key raises (HTTPException 402), otherwise the provider is called once with
the synthesis prompt; any raised exception propagates to the caller. -/
def quincy_synthesize (ai : AIFun) (user : User) (quincy : TeamMember) (req : Request)
    (team_inputs : List TeamInput) : Except Str Str :=
  match get_api_key_for_model user quincy.model with
  | none => Except.error "OpenAI API key required for processing".data
  | some api_key =>
    ai api_key quincy.model (quincySystemPrompt quincy) (synthesis_prompt req team_inputs)

/-- Python `json.dumps` of a list of plain strings (the role names involved
contain no characters that JSON escaping would rewrite). -/
def jsonDumpStrList (l : List Str) : Str :=
  "[".data ++ joinSep ", ".data (l.map (fun s => "\"".data ++ s ++ "\"".data)) ++ "]".data

/-- The consultation loop of `process_request_async`: for each roster role,
consult it when a team member with that role exists and the role is not the
lead; collect the opinions (in roster order) and the internal messages
committed along the way. -/
def consultTeam (ai : AIFun) (user : User) (tms : List TeamMember) (req : Request) :
    List Str → List TeamInput × List RequestMessage
  | [] => ([], [])
  | role :: roles =>
    let rest := consultTeam ai user tms req roles
    match lookupRole tms role with
    | none => rest
    | some tm =>
      if role = pmRole then rest
      else
        let c := consult_team_member ai user tm req []
        (c.1 :: rest.1, c.2.toList ++ rest.2)

/-- The database state a single request's workflow touches: the Request row
with the triggered id (if any), the acting user's User row (if any), that
user's TeamMember rows, and the RequestMessage / Deliverable tables. -/
structure Db where
  request : Option Request
  user : Option User
  team_members : List TeamMember
  messages : List RequestMessage
  deliverables : List Deliverable
deriving DecidableEq, Repr

/-- The successful tail of `process_request_async`: create the Deliverable,
add the final client-visible message from Quincy, and mark the request
completed with `completed_at` recorded. -/
def completeRequest (db : Db) (req2 : Request) (new_msgs : List RequestMessage)
    (content : Str) (now : Nat) : Db :=
  let deliverable : Deliverable :=
    { request_id := req2.id, owner_id := req2.owner_id,
      title := req2.title ++ " - Deliverable".data, content := content,
      deliverable_type := req2.request_type, version := 1, is_draft := false }
  let final_msg : RequestMessage :=
    { request_id := req2.id, owner_id := req2.owner_id, role := "assistant".data,
      sender_name := "Quincy".data,
      content := "Your deliverable is ready! The team has completed the ".data
        ++ req2.request_type ++ " you requested.".data,
      is_internal := false, team_member_role := none }
  { db with request := some { req2 with status := "completed".data, completed_at := some now },
            messages := db.messages ++ new_msgs ++ [final_msg],
            deliverables := db.deliverables ++ [deliverable] }

/-- The tail of `process_request_async` from roster resolution on, given the
fetched request (already marked processing), user and lead: consult the
roster, persist `team_involved` (succeeded roles only), synthesize, and
either complete (new Deliverable, final client-visible message, status
completed) or fail (exception handler sets status failed; the internal
messages and `team_involved` were already committed). -/
def process_core (ai : AIFun) (now : Nat) (db : Db) (req1 : Request) (user : User)
    (quincy : TeamMember) : Db :=
  let roles := rolesToConsult req1.request_type
  let consulted := consultTeam ai user db.team_members req1 roles
  let team_inputs := consulted.1
  let new_msgs := consulted.2
  let contributing := (team_inputs.filter (fun i => !i.error)).map (fun i => i.role)
  let req2 := { req1 with team_involved := some (jsonDumpStrList contributing) }
  match quincy_synthesize ai user quincy req2 team_inputs with
  | Except.error _ =>
    { db with request := some { req2 with status := "failed".data },
              messages := db.messages ++ new_msgs }
  | Except.ok content => completeRequest db req2 new_msgs content now

/-- Source `process_request_async` (routes_processing.py): no row for the
request id is a silent return; otherwise status becomes processing with
`started_at` recorded, then a missing user row or missing lead
(`project_manager`) team member fails the request, and otherwise the
workflow body `process_core` runs. -/
def process_request_async (ai : AIFun) (now : Nat) (db : Db) : Db :=
  match db.request with
  | none => db
  | some req =>
    let req1 := { req with status := "processing".data, started_at := some now }
    match db.user with
    | none => { db with request := some { req1 with status := "failed".data } }
    | some user =>
      match lookupRole db.team_members pmRole with
      | none => { db with request := some { req1 with status := "failed".data } }
      | some quincy => process_core ai now db req1 user quincy

/-- Outcome of the `/api/processing/process` endpoint. -/
inductive TriggerOutcome where
  /-- HTTP 404: no request with this id owned by the caller. -/
  | notFound : TriggerOutcome
  /-- HTTP 400 `"Request is already {status}"`: the idempotency guard. -/
  | alreadyStatus : Str → TriggerOutcome
  /-- the user row was missing (an unhandled AttributeError in the source). -/
  | internalError : TriggerOutcome
  /-- HTTP 402: neither provider credential configured. -/
  | noApiKey : TriggerOutcome
  /-- 200: the background workflow was scheduled for this request id. -/
  | accepted : Str → TriggerOutcome
deriving DecidableEq, Repr

/-- Source `trigger_processing` (routes_processing.py): verify the request
exists and is owned by the caller, reject unless its status is exactly
`"pending"`, require at least one credential, then schedule the background
task.  The endpoint itself writes nothing. -/
def trigger_processing (db : Db) (user_id : Str) : TriggerOutcome :=
  match db.request with
  | none => TriggerOutcome.notFound
  | some req =>
    if req.owner_id ≠ user_id then TriggerOutcome.notFound
    else if req.status ≠ "pending".data then TriggerOutcome.alreadyStatus req.status
    else
      match db.user with
      | none => TriggerOutcome.internalError
      | some user =>
        if !truthyStr user.openai_api_key && !truthyStr user.anthropic_api_key then
          TriggerOutcome.noApiKey
        else TriggerOutcome.accepted req.id

/-- The trigger endpoint together with the background task it schedules
(`background_tasks.add_task(process_request_async, ...)` runs after the
response): on acceptance the workflow runs, otherwise the state is
untouched. -/
def trigger_and_run (ai : AIFun) (now : Nat) (db : Db) (user_id : Str) :
    TriggerOutcome × Db :=
  match trigger_processing db user_id with
  | TriggerOutcome.accepted rid => (TriggerOutcome.accepted rid, process_request_async ai now db)
  | out => (out, db)

/- ========================================================================
   Helper lemmas
   ======================================================================== -/

/-- The compactor is the identity whenever the estimated total is within the
effective budget or the message count is within the recency floor. -/
theorem summarize_eq_self (messages : List Msg) (mt : Nat) (model : Option Str)
    (h : totalTokens messages ≤ effective_max_tokens mt model ∨
      messages.length ≤ keep_recent) :
    summarize_messages_for_context messages mt model = messages := by
  by_cases he : messages = []
  · simp [summarize_messages_for_context, he]
  · by_cases ht : totalTokens messages ≤ effective_max_tokens mt model
    · simp [summarize_messages_for_context, he, ht]
    · rcases h with h | h
      · exact absurd h ht
      · simp [summarize_messages_for_context, he, ht, h]

/-- The compactor's compaction branch: over budget and beyond the recency
floor, the result is the synopsis turn followed by the last `keep_recent`
messages verbatim. -/
theorem summarize_compact (messages : List Msg) (mt : Nat) (model : Option Str)
    (hover : effective_max_tokens mt model < totalTokens messages)
    (hlen : keep_recent < messages.length) :
    summarize_messages_for_context messages mt model =
      { role := "user".data,
        content := synopsisContent (messages.take (messages.length - keep_recent)) }
        :: messages.drop (messages.length - keep_recent) := by
  have hne : messages ≠ [] := by
    intro h
    rw [h] at hlen
    exact absurd hlen (by decide)
  simp [summarize_messages_for_context, hne, not_le.mpr hover, not_le.mpr hlen]

/- ========================================================================
   Claims C4, C7, C8, C9
   ======================================================================== -/

/-- C4: the conversation compactor is the identity on its input whenever the
sum of estimated tokens over all messages is at most the (effective) budget,
or the number of messages is at most the recency constant `keep_recent = 6`
(even if the estimated tokens exceed the budget in the latter case). -/
theorem compactor_identity (messages : List Msg) (mt : Nat) (model : Option Str) :
    (totalTokens messages ≤ effective_max_tokens mt model →
      summarize_messages_for_context messages mt model = messages) ∧
    (messages.length ≤ keep_recent →
      summarize_messages_for_context messages mt model = messages) :=
  ⟨fun h => summarize_eq_self messages mt model (Or.inl h),
   fun h => summarize_eq_self messages mt model (Or.inr h)⟩

/-- Witness for C4: a 7-message list within budget is untouched, and a
3-message list over a zero budget is untouched. -/
theorem compactor_identity_witness :
    (totalTokens (List.replicate 7 (Msg.mk "user".data "hello".data))
        ≤ effective_max_tokens 8000 none ∧
      summarize_messages_for_context
          (List.replicate 7 (Msg.mk "user".data "hello".data)) 8000 none
        = List.replicate 7 (Msg.mk "user".data "hello".data)) ∧
    ((List.replicate 3 (Msg.mk "user".data "aaaaaaaa".data)).length
        ≤ keep_recent ∧
      summarize_messages_for_context
          (List.replicate 3 (Msg.mk "user".data "aaaaaaaa".data)) 0 none
        = List.replicate 3 (Msg.mk "user".data "aaaaaaaa".data)) :=
  ⟨⟨by decide, (compactor_identity _ 8000 none).1 (by decide)⟩,
   ⟨by decide, (compactor_identity _ 0 none).2 (by decide)⟩⟩

/-- C7 counterexample: re-compacting the compactor's own output changes it.
Seven 4-character messages against a zero budget compact to a synopsis plus
the last six; the second pass summarizes the synopsis turn itself into a new,
different synopsis, so `compact (compact m) ≠ compact m`. -/
theorem compaction_not_idempotent_counterexample :
    summarize_messages_for_context
        (summarize_messages_for_context
          (List.replicate 7 (Msg.mk "user".data "aaaa".data)) 0 none) 0 none
      ≠ summarize_messages_for_context
          (List.replicate 7 (Msg.mk "user".data "aaaa".data)) 0 none := by
  decide

/-- C7 amended: compaction is idempotent on every input whose first-pass
output does not itself trigger compaction — that is, whenever the output's
estimated tokens are within the budget or the output is within the recency
floor (in particular whenever the first pass was the identity).  When the
synopsis turn plus the six kept recent turns still exceed the budget, a
second pass compacts again and produces a different list. -/
theorem compaction_idempotent_within_budget (messages : List Msg) (mt : Nat)
    (model : Option Str)
    (h : totalTokens (summarize_messages_for_context messages mt model)
        ≤ effective_max_tokens mt model ∨
      (summarize_messages_for_context messages mt model).length ≤ keep_recent) :
    summarize_messages_for_context (summarize_messages_for_context messages mt model) mt model
      = summarize_messages_for_context messages mt model :=
  summarize_eq_self _ mt model h

/-- Witness for the amended C7: a short list is a fixed point of compaction. -/
theorem compaction_idempotent_within_budget_witness :
    summarize_messages_for_context
        (summarize_messages_for_context [{ role := "user".data, content := "hi".data }] 8000 none)
        8000 none
      = summarize_messages_for_context [{ role := "user".data, content := "hi".data }] 8000 none :=
  compaction_idempotent_within_budget _ 8000 none (Or.inl (by decide))

/-- C8 counterexample: for the unknown model identifier `"my-model"` the
compactor's decision budget is `int(8192 * 0.7) = 5734`, not 8000; a
7-message list estimated at 5742 tokens — within the claimed 8000-token
budget — is nevertheless compacted. -/
theorem unknown_model_budget_counterexample :
    effective_max_tokens 8000 (some "my-model".data) = 5734 ∧ (5734 : Nat) ≠ 8000 ∧
    totalTokens ((Msg.mk "user".data "x".data)
        :: List.replicate 6 (Msg.mk "user".data (List.replicate 3828 'a'))) ≤ 8000 ∧
    summarize_messages_for_context
        ((Msg.mk "user".data "x".data)
          :: List.replicate 6 (Msg.mk "user".data (List.replicate 3828 'a')))
        8000 (some "my-model".data)
      ≠ ((Msg.mk "user".data "x".data)
          :: List.replicate 6 (Msg.mk "user".data (List.replicate 3828 'a'))) := by
  have htok : estimate_tokens (List.replicate 3828 'a') = 957 := by
    unfold estimate_tokens
    rw [List.length_replicate]
  have htot : totalTokens ((Msg.mk "user".data "x".data)
      :: List.replicate 6 (Msg.mk "user".data (List.replicate 3828 'a'))) = 5742 := by
    unfold totalTokens
    rw [List.map_cons, List.map_replicate, List.sum_cons, List.sum_replicate, htok,
      smul_eq_mul]
    decide
  have heff : effective_max_tokens 8000 (some "my-model".data) = 5734 := by decide
  have hlen : ((Msg.mk "user".data "x".data)
      :: List.replicate 6 (Msg.mk "user".data (List.replicate 3828 'a'))).length = 7 := by
    rw [List.length_cons, List.length_replicate]
  refine ⟨heff, by decide, by rw [htot]; norm_num, ?_⟩
  rw [summarize_compact _ 8000 (some "my-model".data)
    (by rw [htot, heff]; norm_num) (by rw [hlen]; decide)]
  rw [hlen]
  simp only [keep_recent, Nat.reduceSub, List.take_succ_cons, List.take_zero,
    List.drop_succ_cons, List.drop_zero]
  intro heq
  injection heq with hhd _
  exact absurd hhd (by decide)

/-- C8 amended: for every model identifier that is non-empty and not in the
known context-limit table, the compactor decides against the budget
`int(8192 * 0.7) = 5734` (the 8000-token default applies only when no model
identifier is supplied), and any message list within 5734 estimated tokens
is returned unchanged. -/
theorem unknown_model_budget_amended (mt : Nat) (model : Str) (hne : model ≠ [])
    (hu : model ∉ ["gpt-4".data, "gpt-4-turbo".data, "gpt-4o".data, "gpt-4o-mini".data,
      "gpt-3.5-turbo".data, "claude-3-5-sonnet-latest".data, "claude-3-5-haiku-latest".data,
      "claude-3-opus-latest".data]) :
    effective_max_tokens mt (some model) = 5734 ∧
    ∀ messages : List Msg, totalTokens messages ≤ 5734 →
      summarize_messages_for_context messages mt (some model) = messages := by
  simp only [List.mem_cons, List.mem_singleton, not_or] at hu
  obtain ⟨h1, h2, h3, h4, h5, h6, h7, h8, -⟩ := hu
  have hlim : get_model_context_limit model = 8192 := by
    simp [get_model_context_limit, h1, h2, h3, h4, h5, h6, h7, h8]
  have htr : truthyStr (some model) = true := by
    cases model with
    | nil => exact absurd rfl hne
    | cons c cs => simp [truthyStr]
  have heff : effective_max_tokens mt (some model) = 5734 := by
    simp [effective_max_tokens, htr, hlim]
    decide
  exact ⟨heff, fun messages h =>
    summarize_eq_self messages mt (some model) (Or.inl (heff ▸ h))⟩

/-- Witness for the amended C8: the unknown model `"my-model"` yields budget
5734 and leaves a small list unchanged. -/
theorem unknown_model_budget_amended_witness :
    effective_max_tokens 8000 (some "my-model".data) = 5734 ∧
    summarize_messages_for_context [{ role := "user".data, content := "hello".data }]
        8000 (some "my-model".data)
      = [{ role := "user".data, content := "hello".data }] :=
  ⟨(unknown_model_budget_amended 8000 "my-model".data (by decide) (by decide)).1,
   (unknown_model_budget_amended 8000 "my-model".data (by decide) (by decide)).2 _ (by decide)⟩

/-- C9: provider selection is a total pure function of the model identifier:
identifiers beginning with `"claude"` route to Anthropic, every other
identifier (including the empty one) routes to OpenAI, the result is always
one of the two providers, and the orchestrator's `call_ai` dispatch agrees
with the chat route's `get_provider_for_model`. -/
theorem provider_selection (model : Str) :
    ("claude".data.isPrefixOf model = true →
      get_provider_for_model model = "anthropic".data) ∧
    ("claude".data.isPrefixOf model = false →
      get_provider_for_model model = "openai".data) ∧
    (get_provider_for_model model = "anthropic".data ∨
      get_provider_for_model model = "openai".data) ∧
    call_ai_provider model = get_provider_for_model model := by
  unfold get_provider_for_model call_ai_provider
  cases h : "claude".data.isPrefixOf model <;> simp [h]

/-- Witness for C9: a claude-family identifier, an OpenAI identifier and the
empty identifier all route, the last two to the default provider. -/
theorem provider_selection_witness :
    get_provider_for_model "claude-3-opus".data = "anthropic".data ∧
    get_provider_for_model "gpt-4".data = "openai".data ∧
    get_provider_for_model [] = "openai".data :=
  ⟨(provider_selection "claude-3-opus".data).1 (by decide),
   (provider_selection "gpt-4".data).2.1 (by decide),
   (provider_selection []).2.1 (by decide)⟩

/- ========================================================================
   Claim C5 — artifact preservation under compaction
   ======================================================================== -/

/-- A string occurs in itself. -/
theorem occursIn_refl (a : Str) : OccursIn a a := ⟨[], [], by simp⟩

/-- Occurrence is preserved by prepending text. -/
theorem occursIn_append_left (t : Str) {a s : Str} (h : OccursIn a s) :
    OccursIn a (t ++ s) := by
  obtain ⟨p, q, rfl⟩ := h
  exact ⟨t ++ p, q, by simp⟩

/-- Occurrence is preserved by appending text. -/
theorem occursIn_append_right (t : Str) {a s : Str} (h : OccursIn a s) :
    OccursIn a (s ++ t) := by
  obtain ⟨p, q, rfl⟩ := h
  exact ⟨p, q ++ t, by simp⟩

/-- Occurrence is transitive. -/
theorem occursIn_trans {a b c : Str} (h1 : OccursIn a b) (h2 : OccursIn b c) :
    OccursIn a c := by
  obtain ⟨p, q, rfl⟩ := h1
  obtain ⟨p', q', rfl⟩ := h2
  exact ⟨p' ++ p, q ++ q', by simp⟩

/-- Something a nonempty string occurs in is nonempty. -/
theorem occursIn_ne_nil {a s : Str} (h : OccursIn a s) (ha : a ≠ []) : s ≠ [] := by
  obtain ⟨p, q, rfl⟩ := h
  intro hs
  simp only [List.append_eq_nil] at hs
  exact ha hs.1.2

/-- A member of a joined list occurs in the join. -/
theorem occursIn_of_mem_joinSep (sep : Str) :
    ∀ (l : List Str) (x : Str), x ∈ l → OccursIn x (joinSep sep l) := by
  intro l
  induction l with
  | nil => simp
  | cons y t ih =>
    intro x hx
    cases t with
    | nil =>
      rw [List.mem_singleton.mp hx]
      exact occursIn_refl y
    | cons z t' =>
      rcases List.mem_cons.mp hx with h | h
      · subst h
        exact ⟨[], sep ++ joinSep sep (z :: t'), by simp [joinSep]⟩
      · have h2 := occursIn_append_left (y ++ sep) (ih x h)
        simpa [joinSep, List.append_assoc] using h2

/-- First-occurrence deduplication preserves membership (fuel form). -/
theorem mem_pyDedupAux :
    ∀ (fuel : Nat) (l : List Str) (x : Str), x ∈ l → l.length ≤ fuel →
      x ∈ pyDedupAux fuel l := by
  intro fuel
  induction fuel with
  | zero =>
    intro l x hx hl
    rw [List.eq_nil_of_length_eq_zero (Nat.le_zero.mp hl)] at hx
    simp at hx
  | succ f ih =>
    intro l x hx hl
    cases l with
    | nil => simp at hx
    | cons y ys =>
      rw [pyDedupAux]
      by_cases hxy : x = y
      · subst hxy
        exact List.mem_cons_self _ _
      · rcases List.mem_cons.mp hx with h | h
        · exact absurd h hxy
        · refine List.mem_cons_of_mem _ (ih _ x ?_ ?_)
          · exact List.mem_filter.mpr ⟨h, by simp [hxy]⟩
          · exact le_trans (List.length_filter_le _ _)
              (Nat.le_of_succ_le_succ (by simpa using hl))

/-- First-occurrence deduplication preserves membership. -/
theorem mem_pyDedup {l : List Str} {x : Str} (h : x ∈ l) : x ∈ pyDedup l :=
  mem_pyDedupAux l.length l x h le_rfl

/-- A message's artifact lines all appear among the scanned messages' lines. -/
theorem mem_artifactLines :
    ∀ (msgs : List Msg) (m : Msg), m ∈ msgs →
      ∀ x ∈ artifactLinesOne m, x ∈ artifactLines msgs := by
  intro msgs
  induction msgs with
  | nil => simp
  | cons m0 ms ih =>
    intro m hm x hx
    rcases List.mem_cons.mp hm with h | h
    · subst h
      exact List.mem_append.mpr (Or.inl hx)
    · exact List.mem_append.mpr (Or.inr (ih m h x hx))

/-- Any artifact line of a scanned message occurs verbatim in the extracted
artifact block. -/
theorem extract_contains (msgs : List Msg) (m : Msg) (x : Str) (hm : m ∈ msgs)
    (hx : x ∈ artifactLinesOne m) :
    OccursIn x (extract_important_artifacts msgs) := by
  unfold extract_important_artifacts
  exact occursIn_of_mem_joinSep _ _ _ (mem_pyDedup (mem_artifactLines msgs m hm x hx))

/-- C5: whenever compaction fires (over budget and more than `keep_recent`
messages) and some older message (before the last `keep_recent`) contains a
recognized artifact — a spreadsheet id after the `spreadsheet_id:` literal,
a stripped `sheets:` list, or a docs.google.com spreadsheet URL — the single
synthetic synopsis turn of the output contains that exact artifact substring
in its content. -/
theorem compactor_artifact_preservation (messages : List Msg) (mt : Nat)
    (model : Option Str) (m : Msg) (a : Str)
    (hover : effective_max_tokens mt model < totalTokens messages)
    (hlen : keep_recent < messages.length)
    (hm : m ∈ messages.take (messages.length - keep_recent))
    (ha : a ∈ scanIds m.content ∨ (∃ c ∈ scanSheets m.content, a = pyStrip c) ∨
      a ∈ scanUrls m.content) :
    ∃ syn : Msg,
      summarize_messages_for_context messages mt model
        = syn :: messages.drop (messages.length - keep_recent) ∧
      syn.role = "user".data ∧ OccursIn a syn.content := by
  have main : ∀ x : Str, x ∈ artifactLinesOne m → OccursIn a x → x ≠ [] →
      ∃ syn : Msg,
        summarize_messages_for_context messages mt model
          = syn :: messages.drop (messages.length - keep_recent) ∧
        syn.role = "user".data ∧ OccursIn a syn.content := by
    intro x hx hax hxne
    have hocc : OccursIn x
        (extract_important_artifacts (messages.take (messages.length - keep_recent))) :=
      extract_contains _ m x hm hx
    have hanil : extract_important_artifacts
        (messages.take (messages.length - keep_recent)) ≠ [] :=
      occursIn_ne_nil hocc hxne
    have ha2 : OccursIn a
        (extract_important_artifacts (messages.take (messages.length - keep_recent))) :=
      occursIn_trans hax hocc
    refine ⟨_, summarize_compact messages mt model hover hlen, rfl, ?_⟩
    simp only [synopsisContent]
    rw [if_neg (by simpa using hanil)]
    exact occursIn_append_left _ ha2
  rcases ha with h | ⟨c, hc, rfl⟩ | h
  · refine main ("- Google Sheet ID: ".data ++ a) ?_ ⟨"- Google Sheet ID: ".data, [], by simp⟩
      (by simp)
    exact List.mem_append.mpr (Or.inl (List.mem_append.mpr (Or.inl
      (List.mem_map.mpr ⟨a, h, rfl⟩))))
  · refine main ("- Sheet tabs: ".data ++ pyStrip c) ?_
      ⟨"- Sheet tabs: ".data, [], by simp⟩ (by simp)
    exact List.mem_append.mpr (Or.inl (List.mem_append.mpr (Or.inr
      (List.mem_map.mpr ⟨c, hc, rfl⟩))))
  · refine main ("- Spreadsheet URL: ".data ++ a) ?_
      ⟨"- Spreadsheet URL: ".data, [], by simp⟩ (by simp)
    exact List.mem_append.mpr (Or.inr (List.mem_map.mpr ⟨a, h, rfl⟩))

/-- Witness for C5: a 7-message list over a zero budget whose oldest message
mentions a spreadsheet id keeps that id inside the synopsis turn. -/
theorem compactor_artifact_preservation_witness :
    ∃ syn : Msg,
      summarize_messages_for_context
          ((Msg.mk "assistant".data "Created it (spreadsheet_id: abc123)".data)
            :: List.replicate 6 (Msg.mk "user".data "okay".data)) 0 none
        = syn :: ((Msg.mk "assistant".data "Created it (spreadsheet_id: abc123)".data)
            :: List.replicate 6 (Msg.mk "user".data "okay".data)).drop
            (((Msg.mk "assistant".data "Created it (spreadsheet_id: abc123)".data)
              :: List.replicate 6 (Msg.mk "user".data "okay".data)).length - keep_recent) ∧
      syn.role = "user".data ∧ OccursIn "abc123".data syn.content :=
  compactor_artifact_preservation _ 0 none
    (Msg.mk "assistant".data "Created it (spreadsheet_id: abc123)".data) "abc123".data
    (by decide) (by decide) (by decide) (Or.inl (by decide))

/- ========================================================================
   Claim C6 — instruction composition
   ======================================================================== -/

/-- C6: instruction composition uses exactly one base layer with fixed
precedence: a truthy persona `instructions` field is the base (the output
starts with it and the linked template contributes nothing — the output does
not depend on the template at all); with `instructions` unset, a linked
template's truthy instructions are the base; and a truthy
`user_instructions` always appears verbatim at the end, after the base
layer, under the labeled "Additional Instructions from User" section,
whether or not a base layer exists. -/
theorem instruction_composition (e : Employee) (rt : Option RoleTemplate) :
    (truthyStr e.instructions = true →
      (∃ rest, compose_instructions e rt = e.instructions.getD [] ++ rest) ∧
      ∀ rt', compose_instructions e rt' = compose_instructions e rt) ∧
    (truthyStr e.instructions = false → ∀ t, rt = some t →
      truthyStr t.instructions = true →
      ∃ rest, compose_instructions e rt = t.instructions.getD [] ++ rest) ∧
    (truthyStr e.user_instructions = true →
      ∃ p, compose_instructions e rt
        = p ++ userSection ++ e.user_instructions.getD []) := by
  refine ⟨fun hb => ⟨?_, ?_⟩, fun hb t hrt ht => ?_, fun hu => ?_⟩
  · by_cases hu : truthyStr e.user_instructions = true
    · refine ⟨"\n".data ++ (userSection ++ e.user_instructions.getD []), ?_⟩
      simp [compose_instructions, hb, hu, joinSep]
    · refine ⟨[], ?_⟩
      simp [compose_instructions, hb, Bool.of_not_eq_true hu, joinSep]
  · intro rt'
    simp [compose_instructions, hb]
  · subst hrt
    by_cases hu : truthyStr e.user_instructions = true
    · refine ⟨"\n".data ++ (userSection ++ e.user_instructions.getD []), ?_⟩
      simp [compose_instructions, hb, ht, hu, joinSep]
    · refine ⟨[], ?_⟩
      simp [compose_instructions, hb, ht, Bool.of_not_eq_true hu, joinSep]
  · by_cases hb : truthyStr e.instructions = true
    · refine ⟨e.instructions.getD [] ++ "\n".data, ?_⟩
      simp [compose_instructions, hb, hu, joinSep]
    · replace hb := Bool.of_not_eq_true hb
      cases rt with
      | none =>
        refine ⟨[], ?_⟩
        simp [compose_instructions, hb, hu, joinSep]
      | some t =>
        by_cases ht : truthyStr t.instructions = true
        · refine ⟨t.instructions.getD [] ++ "\n".data, ?_⟩
          simp [compose_instructions, hb, ht, hu, joinSep]
        · refine ⟨[], ?_⟩
          simp [compose_instructions, hb, Bool.of_not_eq_true ht, hu, joinSep]

/-- Witness for C6: a persona with its own instructions ignores the template
and starts with them, and a persona without instructions falls back to the
template; both carry the user layer at the end. -/
theorem instruction_composition_witness :
    (∃ rest, compose_instructions (Employee.mk (some "OWN".data) (some "USR".data))
        (some (RoleTemplate.mk (some "TPL".data))) = "OWN".data ++ rest) ∧
    (∃ rest, compose_instructions (Employee.mk none (some "USR".data))
        (some (RoleTemplate.mk (some "TPL".data))) = "TPL".data ++ rest) ∧
    (∃ p, compose_instructions (Employee.mk none (some "USR".data))
        (some (RoleTemplate.mk (some "TPL".data))) = p ++ userSection ++ "USR".data) :=
  ⟨((instruction_composition (Employee.mk (some "OWN".data) (some "USR".data))
      (some (RoleTemplate.mk (some "TPL".data)))).1 (by decide)).1,
   (instruction_composition (Employee.mk none (some "USR".data))
      (some (RoleTemplate.mk (some "TPL".data)))).2.1 (by decide) _ rfl (by decide),
   (instruction_composition (Employee.mk none (some "USR".data))
      (some (RoleTemplate.mk (some "TPL".data)))).2.2 (by decide)⟩

/- ========================================================================
   Claim C10 — duplicated memories across segments
   ======================================================================== -/

/-- C10: the persona-scoped and project-scoped memory queries are not
disjoint — a memory owned by the user whose `employee_id` is the active
persona and whose `project_id` is the active project is returned by both, so
its content appears (at least) twice in the list injected into chat context. -/
theorem memory_duplication (mems : List Memory) (uid eid pid : Str) (m : Memory)
    (hm : m ∈ mems) (ho : m.owner_id = uid) (he : m.employee_id = some eid)
    (hp : m.project_id = some pid) :
    2 ≤ (get_memories_for_employee mems uid eid (some pid)).count m.content := by
  have hdef : get_memories_for_employee mems uid eid (some pid)
      = (mems.filter (fun x =>
          x.owner_id == uid && x.employee_id == none && x.project_id == none)).map
          (fun x => x.content)
        ++ (mems.filter (fun x =>
            x.owner_id == uid && x.employee_id == some eid)).map (fun x => x.content)
        ++ (mems.filter (fun x =>
            x.owner_id == uid && x.project_id == some pid)).map (fun x => x.content) := by
    simp only [get_memories_for_employee]
  rw [hdef, List.count_append, List.count_append]
  have hrole : m.content ∈ (mems.filter (fun x =>
      x.owner_id == uid && x.employee_id == some eid)).map (fun x => x.content) :=
    List.mem_map.mpr ⟨m, List.mem_filter.mpr ⟨hm, by simp [ho, he]⟩, rfl⟩
  have hproj : m.content ∈ (mems.filter (fun x =>
      x.owner_id == uid && x.project_id == some pid)).map (fun x => x.content) :=
    List.mem_map.mpr ⟨m, List.mem_filter.mpr ⟨hm, by simp [ho, hp]⟩, rfl⟩
  have h1 := List.count_pos_iff.mpr hrole
  have h2 := List.count_pos_iff.mpr hproj
  omega

/-- Witness for C10: a single memory scoped to both the active persona and
the active project is listed twice. -/
theorem memory_duplication_witness :
    2 ≤ (get_memories_for_employee
        [Memory.mk "u".data (some "e".data) (some "p".data) "fact".data]
        "u".data "e".data (some "p".data)).count "fact".data :=
  memory_duplication _ "u".data "e".data "p".data
    (Memory.mk "u".data (some "e".data) (some "p".data) "fact".data)
    (by decide) rfl rfl rfl

/- ========================================================================
   Orchestration lemmas
   ======================================================================== -/

/-- A role-dict lookup result always carries the looked-up role. -/
theorem lookupRole_role (tms : List TeamMember) :
    ∀ (r : Str) (tm : TeamMember), lookupRole tms r = some tm → tm.role = r := by
  induction tms with
  | nil => intro r tm h; simp [lookupRole] at h
  | cons hd tl ih =>
    intro r tm h
    simp only [lookupRole] at h
    split at h
    · rename_i t heq
      injection h with h'
      exact h' ▸ ih r t heq
    · split at h
      · rename_i hrole
        injection h with h'
        exact h' ▸ hrole
      · exact absurd h (by simp)

/-- A role-dict lookup result is one of the team rows. -/
theorem lookupRole_mem (tms : List TeamMember) :
    ∀ (r : Str) (tm : TeamMember), lookupRole tms r = some tm → tm ∈ tms := by
  induction tms with
  | nil => intro r tm h; simp [lookupRole] at h
  | cons hd tl ih =>
    intro r tm h
    simp only [lookupRole] at h
    split at h
    · rename_i t heq
      injection h with h'
      exact h' ▸ List.mem_cons_of_mem _ (ih r t heq)
    · split at h
      · injection h with h'
        exact h' ▸ List.mem_cons_self _ _
      · exact absurd h (by simp)

/-- A consultation's opinion is attributed to the consulted member's role. -/
theorem consult_fst_role (ai : AIFun) (user : User) (tm : TeamMember) (req : Request)
    (ctx : Str) : ((consult_team_member ai user tm req ctx).1).role = tm.role := by
  unfold consult_team_member
  cases hk : get_api_key_for_model user tm.model with
  | none => rfl
  | some k =>
    cases hcall : ai k tm.model (consultSystemPrompt tm) (consultation_prompt req ctx) with
    | ok r => simp [hcall]
    | error e => simp [hcall]

/-- Unfolding the consultation loop at a role absent from the team dict. -/
theorem consultTeam_cons_none (ai : AIFun) (user : User) (tms : List TeamMember)
    (req : Request) (role : Str) (roles : List Str)
    (h : lookupRole tms role = none) :
    consultTeam ai user tms req (role :: roles) = consultTeam ai user tms req roles := by
  simp [consultTeam, h]

/-- Unfolding the consultation loop at the excluded lead role. -/
theorem consultTeam_cons_pm (ai : AIFun) (user : User) (tms : List TeamMember)
    (req : Request) (roles : List Str) (tm : TeamMember)
    (h : lookupRole tms pmRole = some tm) :
    consultTeam ai user tms req (pmRole :: roles) = consultTeam ai user tms req roles := by
  simp [consultTeam, h]

/-- Unfolding the consultation loop at a present non-lead role. -/
theorem consultTeam_cons_hit (ai : AIFun) (user : User) (tms : List TeamMember)
    (req : Request) (role : Str) (roles : List Str) (tm : TeamMember)
    (h : lookupRole tms role = some tm) (hpm : role ≠ pmRole) :
    consultTeam ai user tms req (role :: roles) =
      ((consult_team_member ai user tm req []).1 :: (consultTeam ai user tms req roles).1,
        (consult_team_member ai user tm req []).2.toList
          ++ (consultTeam ai user tms req roles).2) := by
  simp [consultTeam, h, hpm]

/-- A specialist with no configured credential yields exactly the failed
placeholder opinion and records no internal message. -/
theorem consult_nokey (ai : AIFun) (user : User) (tm : TeamMember) (req : Request)
    (ctx : Str) (h : get_api_key_for_model user tm.model = none) :
    consult_team_member ai user tm req ctx =
      ({ role := tm.role, name := tm.name, input := noKeyPlaceholder tm.name,
         error := true }, none) := by
  unfold consult_team_member
  rw [h]

/-- With a configured key and a non-raising provider, a consultation's
opinion is not marked failed. -/
theorem consult_ok (ai : AIFun) (user : User) (tm : TeamMember) (req : Request)
    (ctx : Str) (k : Str) (hk : get_api_key_for_model user tm.model = some k)
    (hai : ∀ a b c d, ∃ r, ai a b c d = Except.ok r) :
    ((consult_team_member ai user tm req ctx).1).error = false := by
  unfold consult_team_member
  rw [hk]
  obtain ⟨r, hr⟩ := hai k tm.model (consultSystemPrompt tm) (consultation_prompt req ctx)
  simp [hr]

/-- Every opinion collected by the consultation loop comes from some
non-lead roster role that resolved in the team dict. -/
theorem consultTeam_mem (ai : AIFun) (user : User) (tms : List TeamMember) (req : Request) :
    ∀ (roles : List Str) (i : TeamInput), i ∈ (consultTeam ai user tms req roles).1 →
    ∃ r tm, r ∈ roles ∧ r ≠ pmRole ∧ lookupRole tms r = some tm ∧
      i = (consult_team_member ai user tm req []).1 := by
  intro roles
  induction roles with
  | nil => intro i h; simp [consultTeam] at h
  | cons role roles ih =>
    intro i h
    cases hlu : lookupRole tms role with
    | none =>
      rw [consultTeam_cons_none ai user tms req role roles hlu] at h
      obtain ⟨r, tm, h1, h2, h3, h4⟩ := ih i h
      exact ⟨r, tm, List.mem_cons_of_mem _ h1, h2, h3, h4⟩
    | some tm =>
      by_cases hpm : role = pmRole
      · subst hpm
        rw [consultTeam_cons_pm ai user tms req roles tm hlu] at h
        obtain ⟨r, tm', h1, h2, h3, h4⟩ := ih i h
        exact ⟨r, tm', List.mem_cons_of_mem _ h1, h2, h3, h4⟩
      · rw [consultTeam_cons_hit ai user tms req role roles tm hlu hpm] at h
        rcases List.mem_cons.mp h with h | h
        · exact ⟨role, tm, List.mem_cons_self _ _, hpm, hlu, h⟩
        · obtain ⟨r, tm', h1, h2, h3, h4⟩ := ih i h
          exact ⟨r, tm', List.mem_cons_of_mem _ h1, h2, h3, h4⟩

/-- Every non-lead roster role that resolves in the team dict contributes
its consultation's opinion to the loop's output. -/
theorem consultTeam_exists (ai : AIFun) (user : User) (tms : List TeamMember)
    (req : Request) :
    ∀ (roles : List Str) (r : Str) (tm : TeamMember), r ∈ roles → r ≠ pmRole →
      lookupRole tms r = some tm →
      (consult_team_member ai user tm req []).1 ∈ (consultTeam ai user tms req roles).1 := by
  intro roles
  induction roles with
  | nil => intro r tm h; simp at h
  | cons role roles ih =>
    intro r tm hr hpm hlu
    rcases List.mem_cons.mp hr with h | h
    · subst h
      rw [consultTeam_cons_hit ai user tms req r roles tm hlu hpm]
      exact List.mem_cons_self _ _
    · cases hlu' : lookupRole tms role with
      | none =>
        rw [consultTeam_cons_none ai user tms req role roles hlu']
        exact ih r tm h hpm hlu
      | some tm' =>
        by_cases hpm' : role = pmRole
        · subst hpm'
          rw [consultTeam_cons_pm ai user tms req roles tm' hlu']
          exact ih r tm h hpm hlu
        · rw [consultTeam_cons_hit ai user tms req role roles tm' hlu' hpm']
          exact List.mem_cons_of_mem _ (ih r tm h hpm hlu)

/-- `team_contributions` ignores failed opinions: it equals its own value on
the non-failed sublist, so a failed placeholder's text never reaches the
synthesis prompt. -/
theorem team_contributions_filter (l : List TeamInput) :
    team_contributions l = team_contributions (l.filter (fun i => !i.error)) := by
  induction l with
  | nil => rfl
  | cons i is ih =>
    cases hie : i.error with
    | true => simp [team_contributions, List.filter, hie, ih]
    | false => simp [team_contributions, List.filter, hie, ih]

/- ========================================================================
   Claims C2, C3
   ======================================================================== -/

/-- C2: a trigger call on a request whose status is not exactly `"pending"`
(in particular a terminal `"completed"` or `"failed"` one) is rejected with
the HTTP 400 "already ..." outcome, the database state is returned
unchanged — in particular the Request row and the Deliverable table are
untouched, and no background workflow is ever scheduled, so re-triggering
can never create a duplicate Deliverable — and conversely an accepted
trigger implies the status was exactly `"pending"`. -/
theorem trigger_terminal_guard (ai : AIFun) (now : Nat) (db : Db) (uid : Str)
    (req : Request) (hreq : db.request = some req) (hown : req.owner_id = uid) :
    (req.status ≠ "pending".data →
      trigger_and_run ai now db uid = (TriggerOutcome.alreadyStatus req.status, db) ∧
      (trigger_and_run ai now db uid).2.request = some req ∧
      (trigger_and_run ai now db uid).2.deliverables = db.deliverables ∧
      ∀ rid, trigger_processing db uid ≠ TriggerOutcome.accepted rid) ∧
    (∀ rid, trigger_processing db uid = TriggerOutcome.accepted rid →
      req.status = "pending".data) := by
  constructor
  · intro hst
    have htrig : trigger_processing db uid = TriggerOutcome.alreadyStatus req.status := by
      unfold trigger_processing
      rw [hreq]
      simp [hown, hst]
    have hrun : trigger_and_run ai now db uid
        = (TriggerOutcome.alreadyStatus req.status, db) := by
      unfold trigger_and_run
      rw [htrig]
    refine ⟨hrun, ?_, ?_, ?_⟩
    · rw [hrun]
      exact hreq
    · rw [hrun]
    · intro rid
      rw [htrig]
      simp
  · intro rid hacc
    by_contra hne
    have htrig : trigger_processing db uid = TriggerOutcome.alreadyStatus req.status := by
      unfold trigger_processing
      rw [hreq]
      simp [hown, hne]
    rw [htrig] at hacc
    exact absurd hacc (by simp)

/-- Witness for C2: re-triggering a completed request is rejected with the
400 outcome, leaves the state untouched, and schedules nothing. -/
theorem trigger_terminal_guard_witness :
    (trigger_and_run (fun _ _ _ _ => Except.ok []) 0
        (Db.mk (some (Request.mk "r1".data "u".data "T".data "D".data "roadmap".data
          none "completed".data none none none)) (some (User.mk (some "k".data) none))
          [] [] []) "u".data
      = (TriggerOutcome.alreadyStatus "completed".data,
        Db.mk (some (Request.mk "r1".data "u".data "T".data "D".data "roadmap".data
          none "completed".data none none none)) (some (User.mk (some "k".data) none))
          [] [] [])) ∧
    ∀ rid, trigger_processing
        (Db.mk (some (Request.mk "r1".data "u".data "T".data "D".data "roadmap".data
          none "completed".data none none none)) (some (User.mk (some "k".data) none))
          [] [] []) "u".data ≠ TriggerOutcome.accepted rid :=
  ⟨((trigger_terminal_guard (fun _ _ _ _ => Except.ok []) 0 _ "u".data _ rfl rfl).1
      (by decide)).1,
   ((trigger_terminal_guard (fun _ _ _ _ => Except.ok []) 0 _ "u".data _ rfl rfl).1
      (by decide)).2.2.2⟩

/-- C3: roster resolution is a pure lookup on the request type — `"research"`
consults exactly `research_analyst`, `"custom"` has an empty static entry
and falls back to the fixed `product_manager`/`research_analyst` pair, and
for every request type the lead role `project_manager` is never among the
opinions actually collected. -/
theorem roster_resolution :
    rolesToConsult "research".data = ["research_analyst".data] ∧
    REQUEST_TYPE_TEAM "custom".data = [] ∧
    rolesToConsult "custom".data = ["product_manager".data, "research_analyst".data] ∧
    ∀ (ai : AIFun) (user : User) (tms : List TeamMember) (req : Request) (rt : Str)
      (i : TeamInput), i ∈ (consultTeam ai user tms req (rolesToConsult rt)).1 →
      i.role ≠ pmRole := by
  refine ⟨by decide, by decide, by decide, ?_⟩
  intro ai user tms req rt i hi
  obtain ⟨r, tm, _, hpm, hl, hieq⟩ := consultTeam_mem ai user tms req _ i hi
  rw [hieq, consult_fst_role, lookupRole_role tms r tm hl]
  exact hpm

/-- Witness for C3: with a configured research analyst, a `"research"`
request consults exactly that specialist, whose role is not the lead role. -/
theorem roster_resolution_witness :
    rolesToConsult "research".data = ["research_analyst".data] ∧
    (TeamInput.mk "research_analyst".data "Rae".data "ok".data false).role ≠ pmRole :=
  ⟨roster_resolution.1,
   roster_resolution.2.2.2 (fun _ _ _ _ => Except.ok "ok".data)
     (User.mk (some "k".data) none)
     [TeamMember.mk "research_analyst".data "Rae".data "Analyst".data "gpt-4".data none]
     (Request.mk "r1".data "u".data "T".data "D".data "research".data none
       "processing".data none none none)
     "research".data
     (TeamInput.mk "research_analyst".data "Rae".data "ok".data false)
     (by decide)⟩

/- ========================================================================
   Claim C1 — partial failure tolerance of the orchestration workflow
   ======================================================================== -/

/-- With request, user and lead present, the workflow runs its core on the
request marked processing. -/
theorem process_request_async_eq_core (ai : AIFun) (now : Nat) (db : Db) (req : Request)
    (user : User) (tmQ : TeamMember) (hreq : db.request = some req)
    (huser : db.user = some user) (hlq : lookupRole db.team_members pmRole = some tmQ) :
    process_request_async ai now db
      = process_core ai now db { req with status := "processing".data, started_at := some now }
          user tmQ := by
  unfold process_request_async
  simp only [hreq, huser, hlq]

/-- When synthesis succeeds, the workflow core completes the request. -/
theorem process_core_success (ai : AIFun) (now : Nat) (db : Db) (req1 : Request)
    (user : User) (tmQ : TeamMember) (resp : Str)
    (hsynth : quincy_synthesize ai user tmQ
        { req1 with team_involved := some (jsonDumpStrList (((consultTeam ai user
          db.team_members req1 (rolesToConsult req1.request_type)).1.filter
          (fun i => !i.error)).map (fun i => i.role))) }
        (consultTeam ai user db.team_members req1 (rolesToConsult req1.request_type)).1
      = Except.ok resp) :
    process_core ai now db req1 user tmQ
      = completeRequest db
          { req1 with team_involved := some (jsonDumpStrList (((consultTeam ai user
            db.team_members req1 (rolesToConsult req1.request_type)).1.filter
            (fun i => !i.error)).map (fun i => i.role))) }
          (consultTeam ai user db.team_members req1 (rolesToConsult req1.request_type)).2
          resp now := by
  unfold process_core
  simp only [hsynth]

/-- With request, user and a credentialed lead present and a non-raising
provider, the workflow completes: it ends in `completeRequest` applied to
the team_involved-updated request, for some synthesized response text. -/
theorem process_partial_success (ai : AIFun) (now : Nat) (db : Db) (req : Request)
    (user : User) (tmQ : TeamMember)
    (hreq : db.request = some req) (huser : db.user = some user)
    (hlq : lookupRole db.team_members pmRole = some tmQ)
    (hkq : (get_api_key_for_model user tmQ.model).isSome = true)
    (hai : ∀ a b c d, ∃ r, ai a b c d = Except.ok r) :
    ∃ resp : Str,
      process_request_async ai now db
        = completeRequest db
            { { req with status := "processing".data, started_at := some now } with
                team_involved := some (jsonDumpStrList (((consultTeam ai user
                  db.team_members
                  { req with status := "processing".data, started_at := some now }
                  (rolesToConsult
                    ({ req with status := "processing".data, started_at := some now }
                      : Request).request_type)).1.filter
                  (fun i => !i.error)).map (fun i => i.role))) }
            (consultTeam ai user db.team_members
              { req with status := "processing".data, started_at := some now }
              (rolesToConsult
                ({ req with status := "processing".data, started_at := some now }
                  : Request).request_type)).2
            resp now := by
  obtain ⟨kq, hkqe⟩ := Option.isSome_iff_exists.mp hkq
  obtain ⟨resp, hresp⟩ := hai kq tmQ.model (quincySystemPrompt tmQ)
    (synthesis_prompt
      { { req with status := "processing".data, started_at := some now } with
          team_involved := some (jsonDumpStrList (((consultTeam ai user db.team_members
            { req with status := "processing".data, started_at := some now }
            (rolesToConsult
              ({ req with status := "processing".data, started_at := some now }
                : Request).request_type)).1.filter
            (fun i => !i.error)).map (fun i => i.role))) }
      (consultTeam ai user db.team_members
        { req with status := "processing".data, started_at := some now }
        (rolesToConsult
          ({ req with status := "processing".data, started_at := some now }
            : Request).request_type)).1)
  have hsynth : quincy_synthesize ai user tmQ
      { { req with status := "processing".data, started_at := some now } with
          team_involved := some (jsonDumpStrList (((consultTeam ai user db.team_members
            { req with status := "processing".data, started_at := some now }
            (rolesToConsult
              ({ req with status := "processing".data, started_at := some now }
                : Request).request_type)).1.filter
            (fun i => !i.error)).map (fun i => i.role))) }
      (consultTeam ai user db.team_members
        { req with status := "processing".data, started_at := some now }
        (rolesToConsult
          ({ req with status := "processing".data, started_at := some now }
            : Request).request_type)).1 = Except.ok resp := by
    unfold quincy_synthesize
    rw [hkqe]
    exact hresp
  exact ⟨resp, (process_request_async_eq_core ai now db req user tmQ hreq huser hlq).trans
    (process_core_success ai now db
      { req with status := "processing".data, started_at := some now } user tmQ resp hsynth)⟩

/-- The conclusion of claim C1, at the given workflow parameters: the
credential-less specialist yields the failed placeholder opinion; such an
opinion (failed, attributed to that role) is indeed in the collected batch;
failed opinions contribute nothing to the synthesis prompt; the failed role
is excluded from the contributing-roles list persisted as `team_involved`;
the request still reaches status `"completed"` with `completed_at` set; and
exactly one new Deliverable is created. -/
def PartialFailureConclusion (ai : AIFun) (now : Nat) (db : Db) (req : Request)
    (user : User) (failRole : Str) (tmF : TeamMember) : Prop :=
  let req1 : Request := { req with status := "processing".data, started_at := some now }
  let inputs := (consultTeam ai user db.team_members req1 (rolesToConsult req1.request_type)).1
  let contributing := (inputs.filter (fun i => !i.error)).map (fun i => i.role)
  let req2 : Request := { req1 with team_involved := some (jsonDumpStrList contributing) }
  (consult_team_member ai user tmF req1 []).1
      = { role := tmF.role, name := tmF.name, input := noKeyPlaceholder tmF.name,
          error := true } ∧
  (∃ i ∈ inputs, i.role = failRole ∧ i.error = true) ∧
  synthesis_prompt req2 inputs = synthesis_prompt req2 (inputs.filter (fun i => !i.error)) ∧
  failRole ∉ contributing ∧
  (∃ req' : Request, (process_request_async ai now db).request = some req' ∧
    req'.status = "completed".data ∧ req'.completed_at = some now ∧
    req'.team_involved = some (jsonDumpStrList contributing)) ∧
  (process_request_async ai now db).deliverables.length = db.deliverables.length + 1

/-- C1: if the roster contains a specialist with no configured credential
while every other roster specialist and the lead have credentials and the
provider never raises, the workflow still completes: the failed specialist
produces a placeholder opinion marked failed, its text is excluded from the
synthesis prompt, its role is excluded from the persisted `team_involved`
list, the request's status reaches `"completed"` (not `"failed"`), and
exactly one Deliverable is created. -/
theorem orchestrator_partial_failure (ai : AIFun) (now : Nat) (db : Db) (req : Request)
    (user : User) (failRole : Str) (tmF : TeamMember)
    (hreq : db.request = some req)
    (huser : db.user = some user)
    (hq : ∃ tmQ, lookupRole db.team_members pmRole = some tmQ ∧
      (get_api_key_for_model user tmQ.model).isSome = true)
    (hai : ∀ a b c d, ∃ r, ai a b c d = Except.ok r)
    (hfr : failRole ∈ rolesToConsult req.request_type)
    (hfpm : failRole ≠ pmRole)
    (hfl : lookupRole db.team_members failRole = some tmF)
    (hfk : get_api_key_for_model user tmF.model = none)
    (hothers : ∀ r, r ∈ rolesToConsult req.request_type → r ≠ failRole →
      ∀ tm, lookupRole db.team_members r = some tm →
        (get_api_key_for_model user tm.model).isSome = true) :
    PartialFailureConclusion ai now db req user failRole tmF := by
  obtain ⟨tmQ, hlq, hkq⟩ := hq
  obtain ⟨kq, hkqe⟩ := Option.isSome_iff_exists.mp hkq
  refine ⟨?_, ?_, ?_, ?_, ?_, ?_⟩
  · rw [consult_nokey ai user tmF _ [] hfk]
  · refine ⟨(consult_team_member ai user tmF
      { req with status := "processing".data, started_at := some now } []).1,
      consultTeam_exists ai user db.team_members _ _ failRole tmF hfr hfpm hfl, ?_, ?_⟩
    · rw [consult_fst_role]
      exact lookupRole_role db.team_members failRole tmF hfl
    · rw [consult_nokey ai user tmF _ [] hfk]
  · unfold synthesis_prompt
    rw [← team_contributions_filter]
  · intro hmem
    obtain ⟨i, hif, hirole⟩ := List.mem_map.mp hmem
    obtain ⟨hiin, hierr⟩ := List.mem_filter.mp hif
    obtain ⟨r, tm, hr, hpm, hlu, hieq⟩ :=
      consultTeam_mem ai user db.team_members _ _ i hiin
    have hirole2 : i.role = r := by
      rw [hieq, consult_fst_role]
      exact lookupRole_role db.team_members r tm hlu
    have hrfail : r = failRole := by rw [← hirole2, hirole]
    subst hrfail
    rw [hfl] at hlu
    injection hlu with htm
    subst htm
    have hierr2 : i.error = true := by
      rw [hieq, consult_nokey ai user tmF _ [] hfk]
    rw [hierr2] at hierr
    simp at hierr
  · obtain ⟨resp, hproc⟩ :=
      process_partial_success ai now db req user tmQ hreq huser hlq hkq hai
    rw [hproc]
    exact ⟨_, rfl, rfl, rfl, rfl⟩
  · obtain ⟨resp, hproc⟩ :=
      process_partial_success ai now db req user tmQ hreq huser hlq hkq hai
    rw [hproc]
    simp [completeRequest]

/-- Witness for C1: a roadmap request whose technical advisor uses a claude
model while only an OpenAI key is configured — the advisor fails, the
product manager and the lead succeed, and the workflow completes. -/
theorem orchestrator_partial_failure_witness :
    PartialFailureConclusion (fun _ _ _ _ => Except.ok "Great work.".data) 0
      (Db.mk
        (some (Request.mk "r1".data "u1".data "Q1 Plan".data "Plan it".data
          "roadmap".data none "pending".data none none none))
        (some (User.mk (some "sk-openai".data) none))
        [TeamMember.mk "project_manager".data "Quincy".data "Project Manager".data
          "gpt-4".data none,
         TeamMember.mk "product_manager".data "Pam".data "Product Manager".data
          "gpt-4".data none,
         TeamMember.mk "technical_advisor".data "Ted".data "Technical Advisor".data
          "claude-3-sonnet".data none]
        [] [])
      (Request.mk "r1".data "u1".data "Q1 Plan".data "Plan it".data "roadmap".data
        none "pending".data none none none)
      (User.mk (some "sk-openai".data) none)
      "technical_advisor".data
      (TeamMember.mk "technical_advisor".data "Ted".data "Technical Advisor".data
        "claude-3-sonnet".data none) := by
  refine orchestrator_partial_failure _ 0 _ _ _ _ _ rfl rfl
    ⟨TeamMember.mk "project_manager".data "Quincy".data "Project Manager".data
      "gpt-4".data none, by decide, by decide⟩
    (fun a b c d => ⟨"Great work.".data, rfl⟩)
    (by decide) (by decide) (by decide) (by decide) ?_
  intro r hr hrne tm hlu
  have hmem := lookupRole_mem _ r tm hlu
  have hrole := lookupRole_role _ r tm hlu
  simp only [List.mem_cons, List.not_mem_nil, or_false] at hmem
  rcases hmem with rfl | rfl | rfl
  · rw [← hrole] at hr
    exact absurd hr (by decide)
  · decide
  · exact absurd hrole.symm hrne

end QuietDesk
